import Mathlib

/-!
# Verification of the PagerDuty incident pipeline

Shallow embedding of the incident dashboard repository:
* `incident_v2.py` — the `Incident` dataclass, its `to_dict`/`from_dict`
  serialization and its derived predicates;
* `pagerduty_client_v2.py` — service-id validation, custom-field
  extraction and conversion of raw API payloads to `Incident` objects;
* `database_v2.py` — the SQLite-backed store (upsert, batch upsert,
  date-range query) modelled as operations on a list of rows;
* `analytics_v2.py` — the aggregate count queries and the escalation rate.

Machine conventions captured by the model:
* Python `datetime` values are `PyDateTime` records (calendar fields plus
  an optional UTC offset in minutes; `none` = naive).  `astimezone` on a
  naive datetime presumes the *system* local zone, which the model threads
  through as an explicit `sysOffset` parameter.
* SQLite stores text and integers; a table is a list of rows whose columns
  are `Option` values (`none` = SQL NULL).  A `TEXT PRIMARY KEY` column
  admits NULL (long-standing documented SQLite behaviour), and
  `INSERT OR REPLACE` replaces exactly the rows whose key compares equal.
* SQLite's `DATE(...)` function converts a timestamp carrying a
  `±HH:MM` suffix to UTC before taking the calendar date; a timestamp
  without a suffix is taken as already UTC.
* String fields are treated as ASCII for case folding and stripping,
  matching every value the claims touch.  JSON payload fields that the
  code reads with `.get(key, default)` are modelled as `Option` values
  (`none` = key absent).
-/

namespace PD

/-! ## Decimal digits, zero padding and fixed-width parsing -/

/-- The ASCII digit character for `n` (meaningful for `n < 10`). -/
def digitChar (n : Nat) : Char := Char.ofNat (48 + n)

/-- Two-digit zero-padded decimal rendering, as emitted by
`datetime.isoformat` for month, day, hour, minute, second and the
offset components. -/
def pad2 (n : Nat) : List Char := [digitChar (n / 10), digitChar (n % 10)]

/-- Four-digit zero-padded decimal rendering (the year). -/
def pad4 (n : Nat) : List Char :=
  [digitChar (n / 1000), digitChar (n / 100 % 10),
   digitChar (n / 10 % 10), digitChar (n % 10)]

/-- Six-digit zero-padded decimal rendering (microseconds). -/
def pad6 (n : Nat) : List Char :=
  [digitChar (n / 100000), digitChar (n / 10000 % 10),
   digitChar (n / 1000 % 10), digitChar (n / 100 % 10),
   digitChar (n / 10 % 10), digitChar (n % 10)]

/-- Value of one ASCII digit character, `none` for a non-digit. -/
def digitVal (c : Char) : Option Nat :=
  if 48 ≤ c.toNat ∧ c.toNat ≤ 57 then some (c.toNat - 48) else none

/-- Parse a fixed two-digit decimal field. -/
def parse2 (a b : Char) : Option Nat := do
  let x ← digitVal a
  let y ← digitVal b
  pure (10 * x + y)

/-- Parse a fixed four-digit decimal field. -/
def parse4 (a b c d : Char) : Option Nat := do
  let x ← digitVal a
  let y ← digitVal b
  let z ← digitVal c
  let w ← digitVal d
  pure (1000 * x + 100 * y + 10 * z + w)

/-- Parse a fixed six-digit decimal field. -/
def parse6 (a b c d e f : Char) : Option Nat := do
  let x ← digitVal a
  let y ← digitVal b
  let z ← digitVal c
  let w ← digitVal d
  let u ← digitVal e
  let v ← digitVal f
  pure (100000 * x + 10000 * y + 1000 * z + 100 * w + 10 * u + v)

theorem digitVal_digitChar (n : Nat) (h : n < 10) :
    digitVal (digitChar n) = some n := by
  interval_cases n <;> decide

theorem parse2_pad2 (n : Nat) (h : n < 100) :
    parse2 (digitChar (n / 10)) (digitChar (n % 10)) = some n := by
  have h1 : n / 10 < 10 := by omega
  have h2 : n % 10 < 10 := by omega
  simp [parse2, digitVal_digitChar _ h1, digitVal_digitChar _ h2]
  omega

theorem parse4_pad4 (n : Nat) (h : n < 10000) :
    parse4 (digitChar (n / 1000)) (digitChar (n / 100 % 10))
      (digitChar (n / 10 % 10)) (digitChar (n % 10)) = some n := by
  have h1 : n / 1000 < 10 := by omega
  simp [parse4, digitVal_digitChar _ h1, digitVal_digitChar _ (Nat.mod_lt _ (by norm_num) : n / 100 % 10 < 10),
    digitVal_digitChar _ (Nat.mod_lt _ (by norm_num) : n / 10 % 10 < 10),
    digitVal_digitChar _ (Nat.mod_lt _ (by norm_num) : n % 10 < 10)]
  omega

theorem parse6_pad6 (n : Nat) (h : n < 1000000) :
    parse6 (digitChar (n / 100000)) (digitChar (n / 10000 % 10))
      (digitChar (n / 1000 % 10)) (digitChar (n / 100 % 10))
      (digitChar (n / 10 % 10)) (digitChar (n % 10)) = some n := by
  have h1 : n / 100000 < 10 := by omega
  simp [parse6, digitVal_digitChar _ h1,
    digitVal_digitChar _ (Nat.mod_lt _ (by norm_num) : n / 10000 % 10 < 10),
    digitVal_digitChar _ (Nat.mod_lt _ (by norm_num) : n / 1000 % 10 < 10),
    digitVal_digitChar _ (Nat.mod_lt _ (by norm_num) : n / 100 % 10 < 10),
    digitVal_digitChar _ (Nat.mod_lt _ (by norm_num) : n / 10 % 10 < 10),
    digitVal_digitChar _ (Nat.mod_lt _ (by norm_num) : n % 10 < 10)]
  omega

/-! ## Calendar arithmetic

Day numbering of the proleptic Gregorian calendar (Howard Hinnant's
`days_from_civil` / `civil_from_days`), used to model the date arithmetic
that Python's `datetime.astimezone`/`.date()` and SQLite's `DATE()`
perform when an offset moves a timestamp across midnight. -/

/-- Number of days since 1970-01-01 of the civil date `y-m-d`. -/
def daysFromCivil (y m d : Nat) : Int :=
  let yAdj : Int := (y : Int) - (if m ≤ 2 then 1 else 0)
  let era : Int := yAdj.fdiv 400
  let yoe : Nat := (yAdj - era * 400).toNat
  let mp : Nat := (m + 9) % 12
  let doy : Nat := (153 * mp + 2) / 5 + d - 1
  let doe : Nat := yoe * 365 + yoe / 4 - yoe / 100 + doy
  era * 146097 + (doe : Int) - 719468

/-- Civil date `(y, m, d)` of a day number (inverse of `daysFromCivil`). -/
def civilFromDays (z0 : Int) : Nat × Nat × Nat :=
  let z : Int := z0 + 719468
  let era : Int := z.fdiv 146097
  let doe : Nat := (z - era * 146097).toNat
  let yoe : Nat := (doe - doe / 1460 + doe / 36524 - doe / 146096) / 365
  let doy : Nat := doe - (365 * yoe + yoe / 4 - yoe / 100)
  let mp : Nat := (5 * doy + 2) / 153
  let d : Nat := doy - (153 * mp + 2) / 5 + 1
  let m : Nat := if mp < 10 then mp + 3 else mp - 9
  let y : Int := (yoe : Int) + era * 400 + (if m ≤ 2 then 1 else 0)
  (y.toNat, m, d)

/-- Length of a month in the Gregorian calendar (Python's
`calendar`/`datetime` day-range check). -/
def daysInMonth (y m : Nat) : Nat :=
  if m = 2 then
    if y % 4 = 0 ∧ (y % 100 ≠ 0 ∨ y % 400 = 0) then 29 else 28
  else if m = 4 ∨ m = 6 ∨ m = 9 ∨ m = 11 then 30
  else 31

/-! ## The Python `datetime` model -/

/-- A Python `datetime` value: calendar fields plus the `tzinfo` UTC
offset in minutes (`none` = naive datetime).  Every `tzinfo` the program
constructs is a fixed `timezone(timedelta(...))`, i.e. a whole-minute
constant offset. -/
structure PyDateTime where
  year : Nat
  month : Nat
  day : Nat
  hour : Nat
  minute : Nat
  second : Nat
  microsecond : Nat
  offset : Option Int
  deriving Repr, DecidableEq

/-- The value ranges `datetime` enforces at construction time. -/
def PyDateTime.Valid (dt : PyDateTime) : Prop :=
  1 ≤ dt.year ∧ dt.year ≤ 9999 ∧ 1 ≤ dt.month ∧ dt.month ≤ 12 ∧
  1 ≤ dt.day ∧ dt.day ≤ daysInMonth dt.year dt.month ∧
  dt.hour ≤ 23 ∧ dt.minute ≤ 59 ∧ dt.second ≤ 59 ∧
  dt.microsecond ≤ 999999 ∧ (dt.offset.getD 0).natAbs < 1440

instance (dt : PyDateTime) : Decidable dt.Valid := by
  unfold PyDateTime.Valid; infer_instance

/-- Minute-of-epoch of the datetime's wall-clock calendar fields
(ignoring its offset and its sub-minute fields). -/
def PyDateTime.wallMinutes (dt : PyDateTime) : Int :=
  daysFromCivil dt.year dt.month dt.day * 1440 + dt.hour * 60 + dt.minute

/-- `YYYY-MM-DD` character rendering of a civil date. -/
def isoDateChars (ymd : Nat × Nat × Nat) : List Char :=
  pad4 ymd.1 ++ '-' :: pad2 ymd.2.1 ++ '-' :: pad2 ymd.2.2

/-- `date.isoformat()` of the calendar day containing minute-of-epoch
`t` (floor division by the 1440 minutes of a day). -/
def isoDateOfMinutes (t : Int) : String :=
  ⟨isoDateChars (civilFromDays (t.fdiv 1440))⟩

/-! ## `datetime.isoformat` and `datetime.fromisoformat` -/

/-- The `±HH:MM` suffix `isoformat` renders for a whole-minute UTC
offset of `z` minutes. -/
def offsetChars (z : Int) : List Char :=
  (if z < 0 then '-' else '+') ::
    (pad2 (z.natAbs / 60) ++ ':' :: pad2 (z.natAbs % 60))

/-- The offset suffix of `isoformat`: empty for a naive datetime. -/
def offsetTailChars : Option Int → List Char
  | none => []
  | some z => offsetChars z

/-- The fraction-of-second part of `isoformat`: omitted when the
microsecond field is zero, else `.ffffff`. -/
def fracChars (u : Nat) : List Char :=
  if u = 0 then [] else '.' :: pad6 u

/-- `datetime.isoformat()`: `YYYY-MM-DDTHH:MM:SS`, then `.ffffff` when
the microsecond field is non-zero, then the offset suffix when aware. -/
def isoChars (dt : PyDateTime) : List Char :=
  pad4 dt.year ++ '-' :: pad2 dt.month ++ '-' :: pad2 dt.day ++
    'T' :: pad2 dt.hour ++ ':' :: pad2 dt.minute ++ ':' :: pad2 dt.second ++
    (fracChars dt.microsecond ++ offsetTailChars dt.offset)

/-- `datetime.isoformat()` as a string. -/
def isoformat (dt : PyDateTime) : String := ⟨isoChars dt⟩

/-- Parse the optional `±HH:MM` offset suffix. -/
def parseOffsetTail : List Char → Option (Option Int)
  | [] => some none
  | [sign, h1, h2, sep, m1, m2] =>
    if sep = ':' then do
      let hh ← parse2 h1 h2
      let mm ← parse2 m1 m2
      let mag : Int := hh * 60 + mm
      if mag < 1440 then
        if sign = '+' then some (some mag)
        else if sign = '-' then some (some (-mag))
        else none
      else none
    else none
  | _ => none

/-- Parse the optional `.ffffff` fraction followed by the optional
offset suffix. -/
def parseFracTail : List Char → Option (Nat × Option Int)
  | [] => some (0, none)
  | c :: rest =>
    if c = '.' then
      match rest with
      | u1 :: u2 :: u3 :: u4 :: u5 :: u6 :: rest2 => do
        let u ← parse6 u1 u2 u3 u4 u5 u6
        let off ← parseOffsetTail rest2
        pure (u, off)
      | _ => none
    else do
      let off ← parseOffsetTail (c :: rest)
      pure (0, off)

/-- Parse the `THH:MM:SS...` tail of an ISO string; an empty tail is a
date-only string (midnight, naive). -/
def parseTimeTail : List Char → Option (Nat × Nat × Nat × Nat × Option Int)
  | [] => some (0, 0, 0, 0, none)
  | t :: h1 :: h2 :: c1 :: mi1 :: mi2 :: c2 :: s1 :: s2 :: rest =>
    if t = 'T' ∧ c1 = ':' ∧ c2 = ':' then do
      let h ← parse2 h1 h2
      let mi ← parse2 mi1 mi2
      let se ← parse2 s1 s2
      let (us, off) ← parseFracTail rest
      pure (h, mi, se, us, off)
    else none
  | _ => none

/-- `datetime.fromisoformat` on the formats `isoformat` emits: fixed
positions for the date, then the optional time/fraction/offset tail,
with the constructor's range checks. -/
def fromisoChars : List Char → Option PyDateTime
  | y1 :: y2 :: y3 :: y4 :: s1 :: m1 :: m2 :: s2 :: d1 :: d2 :: rest =>
    if s1 = '-' ∧ s2 = '-' then do
      let y ← parse4 y1 y2 y3 y4
      let mo ← parse2 m1 m2
      let d ← parse2 d1 d2
      let (h, mi, se, us, off) ← parseTimeTail rest
      if 1 ≤ y ∧ 1 ≤ mo ∧ mo ≤ 12 ∧ 1 ≤ d ∧ d ≤ daysInMonth y mo ∧
          h ≤ 23 ∧ mi ≤ 59 ∧ se ≤ 59 then
        some ⟨y, mo, d, h, mi, se, us, off⟩
      else none
    else none
  | _ => none

/-- `datetime.fromisoformat` as a partial function on strings. -/
def fromisoformat (s : String) : Option PyDateTime := fromisoChars s.data

theorem daysInMonth_le (y m : Nat) : daysInMonth y m ≤ 31 := by
  unfold daysInMonth
  split
  · split <;> omega
  · split <;> omega

theorem parseOffsetTail_offsetChars (z : Int) (h : z.natAbs < 1440) :
    parseOffsetTail (offsetChars z) = some (some z) := by
  have h1 : z.natAbs / 60 < 100 := by omega
  have h2 : z.natAbs % 60 < 100 := by omega
  have hmag : (↑(z.natAbs / 60) * 60 + ↑(z.natAbs % 60) : Int) = (z.natAbs : Int) := by
    omega
  by_cases hz : z < 0
  · simp only [offsetChars, if_pos hz, pad2, List.cons_append, List.nil_append,
      parseOffsetTail, if_pos rfl, parse2_pad2 _ h1, parse2_pad2 _ h2, if_true,
      Option.some_bind, Option.bind_some, bind, Option.bind, hmag]
    rw [if_pos (by omega : (z.natAbs : Int) < 1440),
      if_neg (by decide : ¬ ('-' = '+'))]
    rw [show -(z.natAbs : Int) = z from by omega]
  · simp only [offsetChars, if_neg hz, pad2, List.cons_append, List.nil_append,
      parseOffsetTail, if_pos rfl, parse2_pad2 _ h1, parse2_pad2 _ h2, if_true,
      Option.some_bind, Option.bind_some, bind, Option.bind, hmag]
    rw [if_pos (by omega : (z.natAbs : Int) < 1440)]
    rw [show ((z.natAbs : Int)) = z from by omega]

theorem parseFracTail_no_dot (c : Char) (cs : List Char) (h : ¬ c = '.') :
    parseFracTail (c :: cs) =
      (parseOffsetTail (c :: cs)).bind (fun off => some (0, off)) := by
  simp only [parseFracTail]
  rw [if_neg h]
  rfl

theorem parseFracTail_frac (u : Nat) (hu : u < 1000000) (cs : List Char) :
    parseFracTail ('.' :: (pad6 u ++ cs)) =
      (parseOffsetTail cs).bind (fun off => some (u, off)) := by
  show parseFracTail ('.' :: digitChar (u / 100000) :: digitChar (u / 10000 % 10) ::
    digitChar (u / 1000 % 10) :: digitChar (u / 100 % 10) :: digitChar (u / 10 % 10) ::
    digitChar (u % 10) :: cs) = _
  simp only [parseFracTail, if_true]
  simp only [parse6_pad6 u hu, Option.some_bind]
  rfl

/-- Parsing the fraction-plus-offset tail that `isoformat` emits
recovers the microsecond and offset fields. -/
theorem parseFracTail_iso (u : Nat) (hu : u ≤ 999999) (o : Option Int)
    (ho : (o.getD 0).natAbs < 1440) :
    parseFracTail (fracChars u ++ offsetTailChars o) = some (u, o) := by
  have hofftail : parseOffsetTail (offsetTailChars o) = some o := by
    rcases o with _ | z
    · rfl
    · exact parseOffsetTail_offsetChars z (by simpa using ho)
  by_cases h0 : u = 0
  · subst h0
    rw [fracChars, if_pos rfl, List.nil_append]
    rcases o with _ | z
    · rfl
    · have hne : ¬ (if z < 0 then '-' else '+') = '.' := by split <;> decide
      have hstep := parseFracTail_no_dot (if z < 0 then '-' else '+')
        (pad2 (z.natAbs / 60) ++ ':' :: pad2 (z.natAbs % 60)) hne
      rw [show (offsetTailChars (some z) : List Char) =
          (if z < 0 then '-' else '+') ::
            (pad2 (z.natAbs / 60) ++ ':' :: pad2 (z.natAbs % 60)) from rfl, hstep,
        ← show (offsetTailChars (some z) : List Char) =
          (if z < 0 then '-' else '+') ::
            (pad2 (z.natAbs / 60) ++ ':' :: pad2 (z.natAbs % 60)) from rfl,
        hofftail]
      rfl
  · rw [fracChars, if_neg h0, List.cons_append, parseFracTail_frac u (by omega),
      hofftail]
    rfl

/-- The serializer/parser round trip at the character-list level. -/
theorem fromisoChars_isoChars (dt : PyDateTime) (h : dt.Valid) :
    fromisoChars (isoChars dt) = some dt := by
  obtain ⟨hy1, hy2, hm1, hm2, hd1, hd2, hh, hmi, hse, hus, hoff⟩ := h
  have hd99 : dt.day < 100 := by
    have := daysInMonth_le dt.year dt.month; omega
  have hfrac := parseFracTail_iso dt.microsecond hus dt.offset hoff
  show fromisoChars (digitChar (dt.year / 1000) :: digitChar (dt.year / 100 % 10) ::
    digitChar (dt.year / 10 % 10) :: digitChar (dt.year % 10) :: '-' ::
    digitChar (dt.month / 10) :: digitChar (dt.month % 10) :: '-' ::
    digitChar (dt.day / 10) :: digitChar (dt.day % 10) :: 'T' ::
    digitChar (dt.hour / 10) :: digitChar (dt.hour % 10) :: ':' ::
    digitChar (dt.minute / 10) :: digitChar (dt.minute % 10) :: ':' ::
    digitChar (dt.second / 10) :: digitChar (dt.second % 10) ::
    (fracChars dt.microsecond ++ offsetTailChars dt.offset)) = some dt
  simp only [fromisoChars, parseTimeTail, if_true,
    parse4_pad4 dt.year (by omega), parse2_pad2 dt.month (by omega),
    parse2_pad2 dt.day hd99, parse2_pad2 dt.hour (by omega),
    parse2_pad2 dt.minute (by omega), parse2_pad2 dt.second (by omega),
    hfrac, Option.some_bind, Option.bind_some, bind, Option.bind]
  simp [hy1, hm1, hm2, hd1, hd2, hh, hmi, hse]
/-- The round trip through `isoformat`/`fromisoformat` at string level. -/
theorem fromisoformat_isoformat (dt : PyDateTime) (h : dt.Valid) :
    fromisoformat (isoformat dt) = some dt :=
  fromisoChars_isoChars dt h

theorem isoChars_ne_nil (dt : PyDateTime) : isoChars dt ≠ [] := by
  show digitChar (dt.year / 1000) :: _ ≠ []
  simp

/-! ## `datetime.astimezone` -/

/-- `dt.astimezone(timezone(timedelta(minutes=target)))`.  CPython
presumes a *naive* `dt` to be in the system's local zone, so the system
UTC offset (in minutes) is an explicit `sysOffset` parameter; an aware
`dt` uses its own offset.  Whole-minute offsets leave the second and
microsecond fields unchanged. -/
def astimezone (sysOffset : Int) (dt : PyDateTime) (target : Int) : PyDateTime :=
  let src := dt.offset.getD sysOffset
  let t := dt.wallMinutes - src + target
  let days := t.fdiv 1440
  let rem := (t - days * 1440).toNat
  let ymd := civilFromDays days
  ⟨ymd.1, ymd.2.1, ymd.2.2, rem / 60, rem % 60, dt.second, dt.microsecond, some target⟩

/-- The fixed offset `timezone(timedelta(hours=-7))`, in minutes. -/
def utc_minus_7 : Int := -7 * 60

/-! ## Python string helpers (ASCII)

`str.lower` and `str.strip` restricted to ASCII, which covers every
custom-field and status value the program manipulates. -/

/-- `str.lower` on one ASCII character. -/
def pyLowerChar (c : Char) : Char :=
  if 'A' ≤ c ∧ c ≤ 'Z' then Char.ofNat (c.toNat + 32) else c

/-- `str.lower`. -/
def pyLower (s : String) : String := ⟨s.data.map pyLowerChar⟩

/-- Python's notion of whitespace for `str.strip` (ASCII part). -/
def isPySpace (c : Char) : Bool :=
  c = ' ' ∨ c = '\t' ∨ c = '\n' ∨ c = '\r' ∨ c = '\x0b' ∨ c = '\x0c'

/-- `str.strip()`: remove leading and trailing whitespace. -/
def pyStrip (s : String) : String :=
  ⟨((s.data.dropWhile isPySpace).reverse.dropWhile isPySpace).reverse⟩

/-- Truthiness of an optional string value (`None` and `""` are falsy). -/
def truthy : Option String → Bool
  | none => false
  | some s => s ≠ ""

/-! ## The `Incident` dataclass (`incident_v2.py`)

Field order, types and defaults mirror the dataclass.  `id` is declared
`str` in the source but Python does not enforce the annotation (the
repository's own tests assign `incident.id = None`), so it is modelled
as an optional string. -/

structure Incident where
  id : Option String
  title : String
  status : String
  service_id : String
  service_name : String
  created_at : PyDateTime
  resolved_at : Option PyDateTime := none
  acknowledged_at : Option PyDateTime := none
  is_escalated : Bool := false
  escalation_policy_id : Option String := none
  escalation_policy_name : Option String := none
  urgency : String := "low"
  priority : Option String := none
  description : Option String := none
  resolved_by_ccoe : Bool := false
  caused_by_infra : Option String := none
  deriving Repr, DecidableEq

/-- A Python value that is either a `bool` or an `int` — the storage
layer hands boolean columns back as the SQLite integers 0/1. -/
inductive PyBool where
  | b (x : Bool)
  | i (n : Int)
  deriving Repr, DecidableEq

/-- Python `bool(...)` on such a value (a non-zero int is truthy). -/
def PyBool.toBool : PyBool → Bool
  | .b x => x
  | .i n => n != 0

/-- The dictionary `Incident.to_dict` produces (and `Incident.from_dict`
consumes): one field per key, timestamps as ISO strings, booleans as
`PyBool` since the database layer returns 0/1 integers for them. -/
structure IncidentDict where
  id : Option String
  title : String
  status : String
  service_id : String
  service_name : String
  created_at : String
  resolved_at : Option String
  acknowledged_at : Option String
  is_escalated : PyBool
  escalation_policy_id : Option String
  escalation_policy_name : Option String
  urgency : String
  priority : Option String
  description : Option String
  resolved_by_ccoe : PyBool
  caused_by_infra : Option String
  deriving Repr, DecidableEq

/-- `Incident.to_dict`: timestamps rendered with `isoformat`
(`x.isoformat() if x else None` for the optional ones — a `datetime`
object is always truthy). -/
def Incident.to_dict (inc : Incident) : IncidentDict where
  id := inc.id
  title := inc.title
  status := inc.status
  service_id := inc.service_id
  service_name := inc.service_name
  created_at := isoformat inc.created_at
  resolved_at := inc.resolved_at.map isoformat
  acknowledged_at := inc.acknowledged_at.map isoformat
  is_escalated := .b inc.is_escalated
  escalation_policy_id := inc.escalation_policy_id
  escalation_policy_name := inc.escalation_policy_name
  urgency := inc.urgency
  priority := inc.priority
  description := inc.description
  resolved_by_ccoe := .b inc.resolved_by_ccoe
  caused_by_infra := inc.caused_by_infra

/-- `datetime.fromisoformat(v) if v else None` — the truthiness guard
`from_dict` applies to the optional timestamps (`None` and `""` both
yield `None`); a parse failure propagates as `none`. -/
def parseOptTimestamp : Option String → Option (Option PyDateTime)
  | none => some none
  | some s => if s = "" then some none else (fromisoformat s).map some

/-- `Incident.from_dict`: parses the timestamps back and coerces the
boolean fields with `bool(...)` (tolerating the 0/1 integers the
database returns); a raising parse is modelled as `none`. -/
def Incident.from_dict (data : IncidentDict) : Option Incident := do
  let created_at ← fromisoformat data.created_at
  let resolved_at ← parseOptTimestamp data.resolved_at
  let acknowledged_at ← parseOptTimestamp data.acknowledged_at
  pure { id := data.id
         title := data.title
         status := data.status
         service_id := data.service_id
         service_name := data.service_name
         created_at := created_at
         resolved_at := resolved_at
         acknowledged_at := acknowledged_at
         is_escalated := data.is_escalated.toBool
         escalation_policy_id := data.escalation_policy_id
         escalation_policy_name := data.escalation_policy_name
         urgency := data.urgency
         priority := data.priority
         description := data.description
         resolved_by_ccoe := data.resolved_by_ccoe.toBool
         caused_by_infra := data.caused_by_infra }

/-- `incident.get_date_str_utc_minus_7()`: convert `created_at` with
`astimezone` to the fixed UTC-7 offset and render `.date().isoformat()`.
The system zone `sysOffset` matters exactly when `created_at` is naive. -/
def Incident.get_date_str_utc_minus_7 (sysOffset : Int) (inc : Incident) : String :=
  let local_time := astimezone sysOffset inc.created_at utc_minus_7
  ⟨isoDateChars (local_time.year, local_time.month, local_time.day)⟩

/-- `incident.is_triggered_or_acknowledged()`. -/
def Incident.is_triggered_or_acknowledged (inc : Incident) : Bool :=
  pyLower inc.status = "triggered" ∨ pyLower inc.status = "acknowledged"

/-- `incident.is_resolved()`. -/
def Incident.is_resolved (inc : Incident) : Bool :=
  pyLower inc.status = "resolved"

/-- `incident.is_caused_by_infrastructure()`:
`bool(self.caused_by_infra and self.caused_by_infra.strip())`. -/
def Incident.is_caused_by_infrastructure (inc : Incident) : Bool :=
  match inc.caused_by_infra with
  | none => false
  | some v => v ≠ "" && pyStrip v ≠ ""

/-- Validity of the timestamps an incident carries (what `datetime`
guarantees for values constructed by the program). -/
def OptDTValid : Option PyDateTime → Prop
  | none => True
  | some dt => dt.Valid

instance : DecidablePred OptDTValid := fun o =>
  match o with
  | none => .isTrue trivial
  | some dt => inferInstanceAs (Decidable dt.Valid)

/-- A valid `Incident`: every timestamp it carries is a valid
`datetime` value. -/
def Incident.ValidTimes (inc : Incident) : Prop :=
  inc.created_at.Valid ∧ OptDTValid inc.resolved_at ∧ OptDTValid inc.acknowledged_at

instance (inc : Incident) : Decidable inc.ValidTimes := by
  unfold Incident.ValidTimes; infer_instance

theorem parseOptTimestamp_roundtrip (o : Option PyDateTime) (h : OptDTValid o) :
    parseOptTimestamp (o.map isoformat) = some o := by
  cases o with
  | none => rfl
  | some dt =>
    have hne : ¬ isoformat dt = "" := by
      intro hEq
      exact isoChars_ne_nil dt (congrArg String.data hEq)
    simp [parseOptTimestamp, hne, fromisoformat_isoformat dt h]

/-- The boolean columns as the storage layer hands them back: SQLite
returns the INTEGER 0/1 it stored for a Python bool. -/
def IncidentDict.sqlBools (d : IncidentDict) : IncidentDict :=
  { d with is_escalated := .i (if d.is_escalated.toBool then 1 else 0),
           resolved_by_ccoe := .i (if d.resolved_by_ccoe.toBool then 1 else 0) }

/-! ## Remote Fetcher (`pagerduty_client_v2.py`) -/

/-- One entry of the `custom_fields` array of the API response, as the
code reads it: `field.get('name', '')` and `field.get('value')`. -/
structure CustomField where
  name : Option String
  value : Option String
  deriving Repr, DecidableEq

/-- The result dict of `_get_incident_custom_fields`. -/
structure CustomFieldsResult where
  resolution : Option String
  prelim_root_cause : Option String
  deriving Repr, DecidableEq

/-- The dict `_get_incident_custom_fields` returns after a timeout or
error exhausts the retries (also its initial value). -/
def custom_fields_default : CustomFieldsResult := ⟨none, none⟩

/-- The post-processing `_get_incident_custom_fields` applies to the
field list of a successful response: `field_name = field.get('name',
'').lower()`; a field named `resolution` (resp. `prelim_root_cause`)
whose value is truthy stores `field_value.lower().strip()` in the
matching slot, later fields overwriting earlier ones. -/
def custom_field_step (result : CustomFieldsResult) (field : CustomField) :
    CustomFieldsResult :=
  let field_name := pyLower (field.name.getD "")
  if field_name = "resolution" ∧ truthy field.value then
    { result with resolution := some (pyStrip (pyLower (field.value.getD ""))) }
  else if field_name = "prelim_root_cause" ∧ truthy field.value then
    { result with prelim_root_cause := some (pyStrip (pyLower (field.value.getD ""))) }
  else result

def extract_custom_fields (fields : List CustomField) : CustomFieldsResult :=
  fields.foldl custom_field_step custom_fields_default

/-- `raw_incident.get('service', dict())` content. -/
structure RawService where
  id : Option String
  name : Option String
  deriving Repr, DecidableEq

/-- `raw_incident.get('escalation_policy', dict())` content. -/
structure RawPolicy where
  id : Option String
  name : Option String
  deriving Repr, DecidableEq

/-- `raw_incident.get('priority')` content (`.get('name')`). -/
structure RawPriority where
  name : Option String
  deriving Repr, DecidableEq

/-- One acknowledgment entry (`acknowledgment.get('at', '')`). -/
structure RawAck where
  at_time : Option String
  deriving Repr, DecidableEq

/-- The fields of a raw `/incidents` payload the conversion reads.
`Option` marks the keys read with `.get`; the plain `String` fields are
indexed directly (`raw_incident['id']` etc.) and are present in every
payload the API returns. -/
structure RawIncident where
  id : String
  title : Option String
  status : String
  service : Option RawService
  created_at : String
  resolved_at : Option String
  acknowledgments : List RawAck
  escalation_policy : Option RawPolicy
  urgency : Option String
  priority : Option RawPriority
  description : Option String
  deriving Repr, DecidableEq

/-- The exceptions the conversion can raise, as values. -/
inductive PyError where
  | attributeError (msg : String)
  | valueError (msg : String)
  deriving Repr, DecidableEq

instance {ε α : Type} [DecidableEq ε] [DecidableEq α] :
    DecidableEq (Except ε α) := fun x y =>
  match x, y with
  | .error e, .error f =>
    if h : e = f then .isTrue (by rw [h]) else .isFalse (by simp [h])
  | .error e, .ok a => .isFalse (fun h => by cases h)
  | .ok a, .error e => .isFalse (fun h => by cases h)
  | .ok a, .ok b =>
    if h : a = b then .isTrue (by rw [h]) else .isFalse (by simp [h])

/-- `ts.replace('Z', '+00:00')`: Python `str.replace` substitutes every
occurrence; for a one-character pattern that is exactly per-character
expansion. -/
def zFix (s : String) : String :=
  ⟨s.data.flatMap (fun c => if c = 'Z' then "+00:00".data else [c])⟩

/-- `datetime.fromisoformat(ts.replace('Z', '+00:00')).astimezone(utc_minus_7)`
— the timestamp handling of `_convert_to_incident_object`. -/
def parseApiTimestamp (sysOffset : Int) (s : String) : Except PyError PyDateTime :=
  match fromisoformat (zFix s) with
  | none => .error (.valueError "Invalid isoformat string")
  | some dt => .ok (astimezone sysOffset dt utc_minus_7)

/-- Python dict `.get` on the service directory (an association list;
the loader keys it by service id, so keys are distinct). -/
def lookupName (service_id_to_name : List (String × String)) (k : String) :
    Option String :=
  (service_id_to_name.find? (fun p => p.1 = k)).map Prod.snd

/-- `_convert_to_incident_object`.  Mirrors the source order: service
lookup, timestamp parsing, acknowledgment handling, then the
custom-field processing `custom_fields.get('resolution').lower()` —
which raises `AttributeError` when the resolution value is `None`
(the default the enrichment produces). -/
def _convert_to_incident_object (sysOffset : Int) (raw : RawIncident)
    (is_escalated : Bool) (service_id_to_name : List (String × String))
    (custom_fields : CustomFieldsResult) : Except PyError Incident := do
  let service := raw.service.getD ⟨none, none⟩
  let service_id := service.id.getD ""
  let service_name := (lookupName service_id_to_name service_id).getD (service.name.getD "")
  let created_at ← parseApiTimestamp sysOffset raw.created_at
  let resolved_at ←
    if truthy raw.resolved_at then
      (parseApiTimestamp sysOffset (raw.resolved_at.getD "")).map some
    else .ok none
  let acknowledged_at ←
    match raw.acknowledgments with
    | [] => .ok none
    | ack :: _ =>
      let ack_time_str := ack.at_time.getD ""
      if ack_time_str ≠ "" then
        (parseApiTimestamp sysOffset ack_time_str).map some
      else .ok none
  let resolution ←
    match custom_fields.resolution with
    | none => Except.error (PyError.attributeError "NoneType object has no attribute lower")
    | some v => Except.ok v
  let resolved_by_ccoe := pyLower resolution = "ccoe"
  let caused_by_infra := custom_fields.prelim_root_cause
  let escalation_policy := raw.escalation_policy.getD ⟨none, none⟩
  Except.ok
    { id := some raw.id
      title := raw.title.getD ""
      status := raw.status
      service_id := service_id
      service_name := service_name
      created_at := created_at
      resolved_at := resolved_at
      acknowledged_at := acknowledged_at
      is_escalated := is_escalated
      escalation_policy_id := escalation_policy.id
      escalation_policy_name := escalation_policy.name
      urgency := raw.urgency.getD "low"
      priority := raw.priority.bind RawPriority.name
      description := raw.description.getD ""
      resolved_by_ccoe := resolved_by_ccoe
      caused_by_infra := caused_by_infra }

/-- The validation error `fetch_incidents_for_date_range` raises:
`ValueError(f"Invalid service IDs: ... Available: ...")`, carrying the
two lists the message interpolates. -/
structure ValidationError where
  invalid_ids : List String
  available : List String
  deriving Repr, DecidableEq

/-- The service-id resolution step of `fetch_incidents_for_date_range`:
`None` falls back to every configured service; an explicit list is
checked element-wise against the directory and the whole call fails
when any id is missing. -/
def validate_service_ids (all_service_ids : List String) :
    Option (List String) → Except ValidationError (List String)
  | none => .ok all_service_ids
  | some ids =>
    let invalid_ids := ids.filter (fun sid => ¬ all_service_ids.contains sid)
    if invalid_ids.isEmpty then .ok ids
    else .error ⟨invalid_ids, all_service_ids⟩

/-- The validation-then-fetch skeleton of
`fetch_incidents_for_date_range`: the raw listing call (abstracted as
`fetch_api`) runs only after validation succeeds; the window
computation, enrichment and conversion that follow do not affect the
validation claim. -/
def fetch_incidents_for_date_range (all_service_ids : List String)
    (supplied : Option (List String))
    (fetch_api : List String → List RawIncident) :
    Except ValidationError (List RawIncident) := do
  let service_ids ← validate_service_ids all_service_ids supplied
  Except.ok (fetch_api service_ids)

/-! ## Persistence Store (`database_v2.py`)

The `incidents` table as a list of rows; a column holds `none` for SQL
NULL.  Every one of the NOT NULL columns receives a non-null value from
`to_dict`, so inserts built from an `Incident` cannot violate a
constraint — in particular the `id TEXT PRIMARY KEY` column accepts
NULL, per SQLite's documented long-standing behaviour. -/

structure Row where
  id : Option String
  title : Option String
  status : Option String
  service_id : Option String
  service_name : Option String
  created_at : Option String
  resolved_at : Option String
  acknowledged_at : Option String
  is_escalated : Option Int
  escalation_policy_id : Option String
  escalation_policy_name : Option String
  urgency : Option String
  priority : Option String
  description : Option String
  resolved_by_ccoe : Option Int
  caused_by_infra : Option String
  updated_at : Option String
  deriving Repr, DecidableEq

/-- The table state. -/
abbrev Table := List Row

/-- sqlite3's adaptation of a bound Python bool-or-int parameter:
`True`/`False` become the INTEGER values 1/0. -/
def PyBool.toSql : PyBool → Int
  | .b x => if x then 1 else 0
  | .i n => n

/-- The row the `INSERT OR REPLACE` statement binds from
`incident.to_dict()` plus `updated_at = datetime.now(utc_minus_7)
.isoformat()` read at insert time (threaded in as `now`). -/
def rowOfDict (d : IncidentDict) (now : String) : Row where
  id := d.id
  title := some d.title
  status := some d.status
  service_id := some d.service_id
  service_name := some d.service_name
  created_at := some d.created_at
  resolved_at := d.resolved_at
  acknowledged_at := d.acknowledged_at
  is_escalated := some d.is_escalated.toSql
  escalation_policy_id := d.escalation_policy_id
  escalation_policy_name := d.escalation_policy_name
  urgency := some d.urgency
  priority := d.priority
  description := d.description
  resolved_by_ccoe := some d.resolved_by_ccoe.toSql
  caused_by_infra := d.caused_by_infra
  updated_at := some now

/-- `INSERT OR REPLACE` keyed on `id TEXT PRIMARY KEY`: a non-NULL key
replaces every row whose key compares equal and the fresh row is
appended; a NULL key conflicts with nothing (SQLite treats NULLs as
pairwise distinct in a primary key), so the row is simply appended. -/
def insertOrReplace (r : Row) (t : Table) : Table :=
  match r.id with
  | none => t ++ [r]
  | some s => (t.filter (fun row => row.id ≠ some s)) ++ [r]

/-- `store_incident`: one upsert. -/
def store_incident (inc : Incident) (now : String) (t : Table) : Table :=
  insertOrReplace (rowOfDict inc.to_dict now) t

/-- `store_incidents_batch`: upserts each record in turn inside one
connection, wrapping each insert in `try/except` and counting the
successes (`datetime.now` is read per record — `clock i` for the i-th).
With this schema no record built from an `Incident` can violate a
constraint, so every insert succeeds. -/
def store_incidents_batch (incidents : List Incident) (clock : Nat → String)
    (t : Table) : Nat × Table :=
  incidents.foldl
    (fun (acc : Nat × Table) inc =>
      (acc.1 + 1, insertOrReplace (rowOfDict inc.to_dict (clock acc.1)) acc.2))
    (0, t)

/-- SQLite `substr(s, 1, 10)`. -/
def substr10 (s : String) : String := ⟨s.data.take 10⟩

/-- SQLite BINARY collation, strict: lexicographic order on the
character sequence (code-point order coincides with the byte order of
the UTF-8 encoding SQLite compares with memcmp). -/
def textLt : List Char → List Char → Bool
  | [], [] => false
  | [], _ :: _ => true
  | _ :: _, [] => false
  | a :: as, b :: bs =>
    if a < b then true else if b < a then false else textLt as bs

/-- `s <= t` under SQLite BINARY collation. -/
def textLe (s t : String) : Bool := ! textLt t.data s.data

theorem textLt_asymm : ∀ x y : List Char, textLt x y = true → textLt y x = false := by
  intro x
  induction x with
  | nil =>
    intro y h
    cases y <;> simp [textLt] at h ⊢
  | cons a as ih =>
    intro y h
    cases y with
    | nil => simp [textLt] at h
    | cons b bs =>
      simp only [textLt] at h ⊢
      rcases lt_trichotomy a b with hab | hab | hab
      · rw [if_neg (lt_asymm hab), if_pos hab]
      · subst hab
        rw [if_neg (lt_irrefl a), if_neg (lt_irrefl a)] at h ⊢
        exact ih bs h
      · rw [if_neg (lt_asymm hab), if_pos hab] at h
        exact absurd h (by simp)

theorem textLt_eq_of_not_lt :
    ∀ x y : List Char, textLt x y = false → textLt y x = false → x = y := by
  intro x
  induction x with
  | nil =>
    intro y h1 h2
    cases y with
    | nil => rfl
    | cons b bs => simp [textLt] at h1
  | cons a as ih =>
    intro y h1 h2
    cases y with
    | nil => simp [textLt] at h2
    | cons b bs =>
      simp only [textLt] at h1 h2
      rcases lt_trichotomy a b with hab | hab | hab
      · rw [if_pos hab] at h1
        exact absurd h1 (by simp)
      · subst hab
        rw [if_neg (lt_irrefl a), if_neg (lt_irrefl a)] at h1 h2
        rw [ih bs h1 h2]
      · rw [if_neg (lt_asymm hab), if_pos hab] at h2
        exact absurd h2 (by simp)

theorem textLt_trans :
    ∀ x y z : List Char, textLt x y = true → textLt y z = true →
      textLt x z = true := by
  intro x
  induction x with
  | nil =>
    intro y z hxy hyz
    cases y with
    | nil => simp [textLt] at hxy
    | cons b bs =>
      cases z with
      | nil => simp [textLt] at hyz
      | cons c cs => simp [textLt]
  | cons a as ih =>
    intro y z hxy hyz
    cases y with
    | nil => simp [textLt] at hxy
    | cons b bs =>
      cases z with
      | nil => simp [textLt] at hyz
      | cons c cs =>
        simp only [textLt] at hxy hyz ⊢
        rcases lt_trichotomy a b with hab | hab | hab
        · rcases lt_trichotomy b c with hbc | hbc | hbc
          · rw [if_pos (lt_trans hab hbc)]
          · subst hbc
            rw [if_pos hab]
          · rw [if_neg (lt_asymm hbc), if_pos hbc] at hyz
            exact absurd hyz (by simp)
        · subst hab
          rcases lt_trichotomy a c with hac | hac | hac
          · rw [if_pos hac]
          · subst hac
            rw [if_neg (lt_irrefl a), if_neg (lt_irrefl a)] at hxy hyz ⊢
            exact ih bs cs hxy hyz
          · rw [if_neg (lt_asymm hac), if_pos hac] at hyz
            exact absurd hyz (by simp)
        · rw [if_neg (lt_asymm hab), if_pos hab] at hxy
          exact absurd hxy (by simp)

/-- Non-strictness (`≥` on text) is transitive. -/
theorem textLt_not_lt_trans (x y z : List Char) (hxy : textLt x y = false)
    (hyz : textLt y z = false) : textLt x z = false := by
  by_contra hxz
  rw [Bool.not_eq_false] at hxz
  rcases hba : textLt y x with _ | _
  · have hEq := textLt_eq_of_not_lt x y hxy hba
    subst hEq
    exact absurd hxz (by rw [hyz]; simp)
  · exact absurd (textLt_trans y x z hba hxz) (by rw [hyz]; simp)

/-- `WHERE substr(created_at, 1, 10) BETWEEN ? AND ?` on one row, with
text compared in BINARY collation (a NULL `created_at` makes the
predicate NULL, so the row is not selected). -/
def dateRangeCond (start_date end_date : String) (r : Row) : Bool :=
  match r.created_at with
  | none => false
  | some c => textLe start_date (substr10 c) && textLe (substr10 c) end_date

/-- The `if service_id:` truthiness guard of
`get_incidents_by_date_range`: the `AND service_id = ?` clause is added
only for a non-`None`, non-empty service id. -/
def serviceCond (service_id : Option String) (r : Row) : Bool :=
  match service_id with
  | none => true
  | some s => if s = "" then true else r.service_id = some s

/-- The sort key of `ORDER BY created_at` (a NULL text sorts before
every string; NULLs cannot occur in selected rows anyway). -/
def createdKey (r : Row) : String := r.created_at.getD ""

/-- Descending order on the stored `created_at` text. -/
def rowOrder (a b : Row) : Prop := textLe (createdKey b) (createdKey a) = true

instance : DecidableRel rowOrder := fun _ _ =>
  inferInstanceAs (Decidable (_ = true))

instance : IsTotal Row rowOrder :=
  ⟨fun a b => by
    unfold rowOrder textLe
    rcases h : textLt (createdKey a).data (createdKey b).data
    · left; simp [h]
    · right; simp [textLt_asymm _ _ h]⟩

instance : IsTrans Row rowOrder :=
  ⟨fun a b c hab hbc => by
    unfold rowOrder textLe at *
    simp only [Bool.not_eq_true', Bool.not_eq_false] at *
    exact textLt_not_lt_trans _ _ _ hab hbc⟩

/-- `ORDER BY created_at DESC` on the stored text, modelled as a stable
sort (SQLite leaves the order of ties unspecified; the claims use only
sortedness and membership). -/
def orderByCreatedDesc (rows : List Row) : List Row :=
  rows.insertionSort rowOrder

/-- `get_incidents_by_date_range(start_date, end_date, service_id)`. -/
def get_incidents_by_date_range (start_date end_date : String)
    (service_id : Option String) (t : Table) : List Row :=
  orderByCreatedDesc (t.filter (fun r =>
    dateRangeCond start_date end_date r && serviceCond service_id r))

/-- SQLite `DATE(x)` on the ISO-8601 timestamps this program stores:
parse the timestamp, convert to UTC using its `±HH:MM` suffix when one
is present (a value without a suffix is taken as already UTC), and
return the UTC calendar date; an unparseable value yields NULL. -/
def sqliteDate (s : String) : Option String :=
  (fromisoformat s).map (fun dt =>
    isoDateOfMinutes (dt.wallMinutes - dt.offset.getD 0))

/-- `WHERE DATE(created_at) BETWEEN ? AND ?` on one row — the date
condition used by `get_escalated_incidents_last_x_days` and by every
Metrics Engine query. -/
def analyticsDateCond (start_date end_date : String) (r : Row) : Bool :=
  match r.created_at with
  | none => false
  | some c =>
    match sqliteDate c with
    | none => false
    | some d => textLe start_date d && textLe d end_date

/-- `get_escalated_incidents_last_x_days` restricted to its
row-selection (the window `[start_date, end_date]` is precomputed from
the clock by the caller): `DATE(created_at) BETWEEN ? AND ?` and
`is_escalated = 1`, ordered by `created_at DESC`. -/
def get_escalated_incidents_last_x_days (start_date end_date : String)
    (t : Table) : List Row :=
  orderByCreatedDesc (t.filter (fun r =>
    analyticsDateCond start_date end_date r && decide (r.is_escalated = some 1)))

/-! ## Metrics Engine (`analytics_v2.py`)

Each count query selects `COUNT(*)` under `DATE(created_at) BETWEEN ?
AND ?` plus its own filter; the `[start_date, end_date]` window is
computed from `datetime.now(utc_minus_7)` and the `days` parameter and
is threaded in here as the two date strings. -/

/-- `get_total_incidents_last_x_days` (the `COUNT(*)` value). -/
def get_total_incidents_last_x_days (start_date end_date : String)
    (t : Table) : Nat :=
  (t.filter (analyticsDateCond start_date end_date)).length

/-- `get_escalated_incidents_last_x_days` of the analytics layer (the
`COUNT(*)` value under the additional `is_escalated = 1` filter). -/
def get_escalated_count_last_x_days (start_date end_date : String)
    (t : Table) : Nat :=
  (t.filter (fun r =>
    analyticsDateCond start_date end_date r && decide (r.is_escalated = some 1))).length

/-- `get_escalation_rate_last_x_days`, with exact rational arithmetic
standing in for Python floats (every value the claims mention is
exactly representable). -/
def get_escalation_rate_last_x_days (start_date end_date : String)
    (t : Table) : ℚ :=
  let total := get_total_incidents_last_x_days start_date end_date t
  let escalated := get_escalated_count_last_x_days start_date end_date t
  if total = 0 then 0
  else ((escalated : ℚ) / (total : ℚ)) * 100

/-! ## Concrete instances used by the claims -/

/-- 2024-01-15 18:30:00 at the fixed UTC-7 offset. -/
def sampleDT : PyDateTime := ⟨2024, 1, 15, 18, 30, 0, 0, some (-420)⟩

/-- An incident with every optional field at its dataclass default. -/
def sampleIncident : Incident where
  id := some "Q1ABC123DEF"
  title := "Database Connection Timeout"
  status := "resolved"
  service_id := "PHMCGNE"
  service_name := "Production Database Service"
  created_at := sampleDT

/-- An incident with every optional field populated (leap day, positive
offset, naive timestamp and microseconds among the values). -/
def fullIncident : Incident where
  id := some "Q2FULL"
  title := "Full"
  status := "acknowledged"
  service_id := "PXYZ001"
  service_name := "Search Service"
  created_at := ⟨2024, 2, 29, 23, 59, 59, 123456, some (-420)⟩
  resolved_at := some ⟨2024, 3, 1, 0, 10, 0, 0, some 330⟩
  acknowledged_at := some ⟨2024, 2, 29, 23, 59, 59, 999999, none⟩
  is_escalated := true
  escalation_policy_id := some "POLICY1"
  escalation_policy_name := some "Escalation Policy"
  urgency := "high"
  priority := some "P1"
  description := some "desc"
  resolved_by_ccoe := true
  caused_by_infra := some "rheos"

/-- A typical raw incident payload. -/
def rawSample : RawIncident where
  id := "Q1ABC123DEF"
  title := some "Database Connection Timeout"
  status := "resolved"
  service := some ⟨some "PHMCGNE", some "Prod DB"⟩
  created_at := "2025-08-23T10:00:00-07:00"
  resolved_at := some "2025-08-23T11:00:00Z"
  acknowledgments := [⟨some "2025-08-23T10:30:00Z"⟩]
  escalation_policy := some ⟨some "POLICY1", some "Policy"⟩
  urgency := some "high"
  priority := some ⟨some "P1"⟩
  description := some "Test"

/-- The configured service directory used with `rawSample`. -/
def sampleDirectory : List (String × String) :=
  [("PHMCGNE", "Production Database Service")]

/-- The incident of the repository's naive-datetime test
(`created_at = datetime(2025, 8, 23, 10, 30)`-style, here 03:00 so that
the system zone becomes observable at a date boundary). -/
def naiveIncident : Incident where
  id := some "NAIVE123"
  title := "Naive timezone test"
  status := "triggered"
  service_id := "SERVICE1"
  service_name := "Test Service"
  created_at := ⟨2025, 8, 23, 3, 0, 0, 0, none⟩

/-- The incident of the repository's date-boundary test:
`created_at` at 00:30 UTC on 2025-08-24. -/
def utcEdgeIncident : Incident where
  id := some "EDGE123"
  title := "Edge case test"
  status := "triggered"
  service_id := "SERVICE1"
  service_name := "Test Service"
  created_at := ⟨2025, 8, 24, 0, 30, 0, 0, some 0⟩

/-! ## Claims -/

/-- **C1.**  The claim says `_convert_to_incident_object` succeeds on
every enrichment result and yields `resolved_by_ccoe = false` when the
`resolution` value is absent.  The code evaluates
`custom_fields.get('resolution').lower()`, which raises
`AttributeError` on the enrichment default `resolution = None` — the
conversion fails exactly where the claim (and the repository's own test
`test_convert_to_incident_object_without_custom_fields`) expects it to
succeed.  When a resolution value is present the ccoe comparison is
case-insensitive as claimed (the value reaches the comparison already
lower-cased and stripped, and is lower-cased again). -/
theorem c1_convert_raises_on_absent_resolution :
    _convert_to_incident_object 0 rawSample false sampleDirectory
        custom_fields_default =
      Except.error (PyError.attributeError
        "NoneType object has no attribute lower") ∧
    (_convert_to_incident_object 0 rawSample false sampleDirectory
        ⟨some "ccoe", none⟩).toOption.map Incident.resolved_by_ccoe = some true ∧
    (_convert_to_incident_object 0 rawSample false sampleDirectory
        ⟨some "done", none⟩).toOption.map Incident.resolved_by_ccoe = some false := by
  refine ⟨by decide, by decide, by decide⟩

/-- **C2.**  The claim says a naive `created_at` is treated as already
expressed in UTC-7, so the date key is the naive timestamp's own
calendar date.  `astimezone` on a naive datetime presumes the *system*
zone: under a UTC system zone the naive timestamp 2025-08-23 03:00:00
is bucketed to `2025-08-22`, not its own date `2025-08-23`; the claimed
behaviour occurs only when the system zone itself is UTC-7.  The
timezone-aware clauses of the claim do hold: 00:30 UTC is bucketed to
the prior calendar date regardless of the system zone. -/
theorem c2_naive_date_key_uses_system_zone :
    Incident.get_date_str_utc_minus_7 0 naiveIncident = "2025-08-22" ∧
    "2025-08-22" ≠ "2025-08-23" ∧
    Incident.get_date_str_utc_minus_7 (-420) naiveIncident = "2025-08-23" ∧
    Incident.get_date_str_utc_minus_7 0 utcEdgeIncident = "2025-08-23" ∧
    Incident.get_date_str_utc_minus_7 (-420) utcEdgeIncident = "2025-08-23" := by
  exact ⟨rfl, by decide, rfl, rfl, rfl⟩

theorem pyBool_sql_roundtrip (x : Bool) :
    (PyBool.i (if x then 1 else 0)).toBool = x := by
  cases x <;> rfl

theorem ite_int_bne_zero (b : Bool) :
    (((if b then 1 else 0 : Int)) != 0) = b := by
  cases b <;> rfl

/-- **C3.**  `from_dict ∘ to_dict` is the identity on every incident
whose timestamps are valid `datetime` values, both on the dictionary
`to_dict` produces and on its storage-layer image with the boolean
fields represented as the integers 0/1. -/
theorem c3_serialize_roundtrip (inc : Incident) (h : inc.ValidTimes) :
    Incident.from_dict inc.to_dict = some inc ∧
    Incident.from_dict inc.to_dict.sqlBools = some inc := by
  obtain ⟨h1, h2, h3⟩ := h
  constructor <;>
    simp [Incident.from_dict, Incident.to_dict, IncidentDict.sqlBools,
      fromisoformat_isoformat _ h1, parseOptTimestamp_roundtrip _ h2,
      parseOptTimestamp_roundtrip _ h3, PyBool.toBool, ite_int_bne_zero]

/-- Witness for C3 at an incident with the optional fields absent. -/
theorem c3_serialize_roundtrip_witness :
    sampleIncident.ValidTimes ∧
    (Incident.from_dict sampleIncident.to_dict = some sampleIncident ∧
     Incident.from_dict sampleIncident.to_dict.sqlBools = some sampleIncident) :=
  ⟨by decide, c3_serialize_roundtrip sampleIncident (by decide)⟩

/-- **C4.**  The claim says `substr(created_at, 1, 10)` and SQLite's
`DATE(created_at)` bucket every stored timestamp to the same date.
`DATE` converts the `-07:00` suffix produced by `to_dict` to UTC first,
so every stored timestamp with local hour ≥ 17 lands on the next UTC
day: the range query (substr) and the metrics queries (DATE) disagree
on such records, against the UTC-7 dating the code intends. -/
theorem c4_substr_vs_sqlite_date :
    sampleIncident.to_dict.created_at = "2024-01-15T18:30:00-07:00" ∧
    substr10 sampleIncident.to_dict.created_at = "2024-01-15" ∧
    sqliteDate sampleIncident.to_dict.created_at = some "2024-01-16" ∧
    some (substr10 sampleIncident.to_dict.created_at) ≠
      sqliteDate sampleIncident.to_dict.created_at ∧
    dateRangeCond "2024-01-15" "2024-01-15"
      (rowOfDict sampleIncident.to_dict "2024-02-01T00:00:00-07:00") = true ∧
    analyticsDateCond "2024-01-15" "2024-01-15"
      (rowOfDict sampleIncident.to_dict "2024-02-01T00:00:00-07:00") = false := by
  refine ⟨rfl, rfl, rfl, by decide, rfl, rfl⟩

/-- **C5.**  The escalation rate is exactly 0 when the window's total
count is 0, and exactly escalated/total × 100 otherwise (the division
happens only under the zero guard). -/
theorem c5_escalation_rate_formula (start_date end_date : String) (t : Table) :
    (get_total_incidents_last_x_days start_date end_date t = 0 →
      get_escalation_rate_last_x_days start_date end_date t = 0) ∧
    (0 < get_total_incidents_last_x_days start_date end_date t →
      get_escalation_rate_last_x_days start_date end_date t =
        (get_escalated_count_last_x_days start_date end_date t : ℚ) /
          (get_total_incidents_last_x_days start_date end_date t : ℚ) * 100) := by
  constructor
  · intro h
    simp [get_escalation_rate_last_x_days, h]
  · intro h
    have hne : get_total_incidents_last_x_days start_date end_date t ≠ 0 := by omega
    simp [get_escalation_rate_last_x_days, hne]

/-- A row of the C5 witness table: stored on 2024-03-10 local UTC-7
(hour 10, so `DATE` and the prefix agree), escalated or not. -/
def rateRow (i : String) (esc : Bool) : Row :=
  rowOfDict
    { id := some i, title := "t", status := "triggered",
      service_id := "S1", service_name := "Svc",
      created_at := ⟨2024, 3, 10, 10, 0, 0, 0, some (-420)⟩,
      is_escalated := esc : Incident }.to_dict
    "2024-03-10T12:00:00-07:00"

/-- Four incidents on one day, two escalated. -/
def rateTable : Table :=
  [rateRow "A" true, rateRow "B" false, rateRow "C" true, rateRow "D" false]

/-- Witness for C5: 2 escalated of 4 total yields exactly 50. -/
theorem c5_escalation_rate_formula_witness :
    get_total_incidents_last_x_days "2024-03-04" "2024-03-10" rateTable = 4 ∧
    get_escalated_count_last_x_days "2024-03-04" "2024-03-10" rateTable = 2 ∧
    get_escalation_rate_last_x_days "2024-03-04" "2024-03-10" rateTable = 50 := by
  refine ⟨by decide, by decide, ?_⟩
  have h := (c5_escalation_rate_formula "2024-03-04" "2024-03-10" rateTable).2
    (by decide)
  rw [h,
    show get_escalated_count_last_x_days "2024-03-04" "2024-03-10" rateTable = 2
      from by decide,
    show get_total_incidents_last_x_days "2024-03-04" "2024-03-10" rateTable = 4
      from by decide]
  norm_num

/-- An incident for the batch-store scenario, with the given (possibly
null) identity. -/
def mkBatchInc (i : Option String) : Incident where
  id := i
  title := "t"
  status := "triggered"
  service_id := "S1"
  service_name := "Svc"
  created_at := ⟨2024, 3, 10, 10, 0, 0, 0, some (-420)⟩

/-- Five records with distinct ids plus one with a null identity. -/
def mixedBatch : List Incident :=
  [mkBatchInc (some "I1"), mkBatchInc (some "I2"), mkBatchInc (some "I3"),
   mkBatchInc (some "I4"), mkBatchInc (some "I5"), mkBatchInc none]

/-- The per-record clock of the batch store. -/
def batchClock : Nat → String := fun _ => "2024-03-10T12:00:00-07:00"

/-- **C6.**  The claim (and the repository's own
`test_store_incidents_batch_with_errors`) expects a record with a null
identity to fail, be skipped, and the batch of 5 valid + 1 null-id
records to store 5 and return 5.  SQLite accepts NULL in a `TEXT
PRIMARY KEY` column, so the insert succeeds: the call stores all 6 rows
(exactly one with a NULL id) and returns 6. -/
theorem c6_null_identity_is_stored :
    (store_incidents_batch mixedBatch batchClock []).1 = 6 ∧
    (store_incidents_batch mixedBatch batchClock []).2.length = 6 ∧
    ((store_incidents_batch mixedBatch batchClock []).2.filter
        (fun r => r.id.isNone)).length = 1 ∧
    (6 : Nat) ≠ 5 := by
  refine ⟨by decide, by decide, by decide, by decide⟩

/-- A stored row belonging to service `S1`. -/
def c7Row : Row :=
  rowOfDict
    { id := some "R1", title := "t", status := "triggered",
      service_id := "S1", service_name := "Svc",
      created_at := ⟨2024, 1, 15, 10, 0, 0, 0, some (-420)⟩ : Incident }.to_dict
    "2024-01-15T12:00:00-07:00"

/-- **C7 counterexample.**  The claim restricts the result to the given
service whenever one is supplied.  Supplying the empty-string service
id (a legal string value — converted incidents default to `''` when the
payload lacks a service id) disables the filter entirely: the query
returns a row of service `S1` instead of no rows. -/
theorem c7_counterexample_empty_service_id :
    get_incidents_by_date_range "2024-01-01" "2024-12-31" (some "") [c7Row] =
      [c7Row] ∧
    c7Row.service_id = some "S1" ∧
    some "S1" ≠ some "" := by
  refine ⟨by decide, by decide, by decide⟩

/-- **C7 (amended).**  `get_incidents_by_date_range` returns exactly
the stored rows whose `created_at` ISO date prefix lies in the
inclusive `[start_date, end_date]` range under string comparison,
restricted to the given service when a *non-empty* service id is
supplied (`if service_id:` treats the empty string as no filter),
ordered descending by the stored creation timestamp; a range excluding
every stored row yields the empty result. -/
theorem c7_query_by_date_range (start_date end_date : String)
    (service_id : Option String) (t : Table) :
    List.Perm (get_incidents_by_date_range start_date end_date service_id t)
      (t.filter (fun r =>
        dateRangeCond start_date end_date r && serviceCond service_id r)) ∧
    (∀ r, r ∈ get_incidents_by_date_range start_date end_date service_id t ↔
      (r ∈ t ∧ dateRangeCond start_date end_date r = true ∧
        serviceCond service_id r = true)) ∧
    List.Sorted rowOrder
      (get_incidents_by_date_range start_date end_date service_id t) ∧
    ((∀ r ∈ t, dateRangeCond start_date end_date r = false) →
      get_incidents_by_date_range start_date end_date service_id t = []) := by
  refine ⟨List.perm_insertionSort _ _, ?_, List.sorted_insertionSort _ _, ?_⟩
  · intro r
    rw [get_incidents_by_date_range, orderByCreatedDesc, List.mem_insertionSort,
      List.mem_filter]
    simp [Bool.and_eq_true, and_assoc]
  · intro hall
    rw [get_incidents_by_date_range, orderByCreatedDesc]
    have hnil : t.filter (fun r =>
        dateRangeCond start_date end_date r && serviceCond service_id r) = [] := by
      apply List.filter_eq_nil_iff.mpr
      intro r hr
      simp [hall r hr]
    rw [hnil]
    rfl

/-- Witness for C7 at a concrete table: a covering range returns the
row, an excluding range returns nothing. -/
theorem c7_query_by_date_range_witness :
    get_incidents_by_date_range "2024-01-01" "2024-12-31" (some "S1") [c7Row] =
      [c7Row] ∧
    get_incidents_by_date_range "2025-01-01" "2025-12-31" (some "S1") [c7Row] =
      [] := by
  refine ⟨by decide, ?_⟩
  exact (c7_query_by_date_range "2025-01-01" "2025-12-31" (some "S1")
    [c7Row]).2.2.2 (by decide)

/-- **C8.**  When any supplied service id is missing from the
configured directory the call fails with a validation error whose
invalid-id list is exactly the supplied ids not in the directory (in
order), the listing call is never made (the result is the same error
for every fetch oracle), and when all ids are present no validation
error is raised. -/
theorem c8_service_id_validation (all_service_ids ids : List String)
    (fetch_api fetch_api2 : List String → List RawIncident) :
    ((∃ sid ∈ ids, ¬ sid ∈ all_service_ids) →
      ∃ e : ValidationError,
        fetch_incidents_for_date_range all_service_ids (some ids) fetch_api =
          Except.error e ∧
        fetch_incidents_for_date_range all_service_ids (some ids) fetch_api2 =
          Except.error e ∧
        e.available = all_service_ids ∧
        (∀ sid, sid ∈ e.invalid_ids ↔ (sid ∈ ids ∧ ¬ sid ∈ all_service_ids))) ∧
    ((∀ sid ∈ ids, sid ∈ all_service_ids) →
      fetch_incidents_for_date_range all_service_ids (some ids) fetch_api =
        Except.ok (fetch_api ids)) := by
  constructor
  · rintro ⟨sid, hsid, hnot⟩
    have hmem : sid ∈ ids.filter (fun s => ¬ all_service_ids.contains s) := by
      rw [List.mem_filter]
      exact ⟨hsid, by simpa using hnot⟩
    have hne : (ids.filter (fun s => ¬ all_service_ids.contains s)).isEmpty = false := by
      rcases h : ids.filter (fun s => ¬ all_service_ids.contains s) with _ | _
      · rw [h] at hmem
        simp at hmem
      · rfl
    have hcond : ¬ ∀ a ∈ ids, a ∈ all_service_ids := by
      push_neg
      exact ⟨sid, hsid, hnot⟩
    refine ⟨⟨ids.filter (fun s => ¬ all_service_ids.contains s), all_service_ids⟩,
      ?_, ?_, rfl, ?_⟩
    · simp [fetch_incidents_for_date_range, validate_service_ids, hne, bind,
        Except.bind, hcond]
    · simp [fetch_incidents_for_date_range, validate_service_ids, hne, bind,
        Except.bind, hcond]
    · intro s
      rw [List.mem_filter]
      simp
  · intro hall
    simp only [fetch_incidents_for_date_range, validate_service_ids, bind,
      Except.bind]
    have hnil : ids.filter (fun s => ¬ all_service_ids.contains s) = [] := by
      apply List.filter_eq_nil_iff.mpr
      intro s hs
      simpa using hall s hs
    rw [hnil]
    rfl

/-- Witness for C8: one invalid id yields the error naming it; valid
ids pass through to the listing call. -/
theorem c8_service_id_validation_witness :
    (∃ sid ∈ ["PBAD999"], ¬ sid ∈ ["PHMCGNE", "PXYZ001"]) ∧
    fetch_incidents_for_date_range ["PHMCGNE", "PXYZ001"] (some ["PBAD999"])
      (fun _ => []) = Except.error ⟨["PBAD999"], ["PHMCGNE", "PXYZ001"]⟩ ∧
    fetch_incidents_for_date_range ["PHMCGNE", "PXYZ001"] (some ["PXYZ001"])
      (fun _ => [rawSample]) = Except.ok [rawSample] := by
  refine ⟨by decide, by decide, ?_⟩
  exact (c8_service_id_validation ["PHMCGNE", "PXYZ001"] ["PXYZ001"]
    (fun _ => [rawSample]) (fun _ => [])).2 (by decide)

/-- **C9 counterexample.**  The claim says the stored `caused_by_infra`
is the raw API value of the `prelim_root_cause` field, with whitespace
values treated as absent.  The extraction stores
`field_value.lower().strip()`: the raw value `"Rheos"` is stored as
`"rheos"`, and a whitespace-only value is stored as the empty string
(present, not absent). -/
theorem c9_counterexample_value_transformed :
    extract_custom_fields [⟨some "resolution", some "Done"⟩,
        ⟨some "prelim_root_cause", some "Rheos"⟩] =
      ⟨some "done", some "rheos"⟩ ∧
    some "rheos" ≠ some "Rheos" ∧
    (_convert_to_incident_object 0 rawSample false sampleDirectory
        ⟨some "done", some "rheos"⟩).toOption.map Incident.caused_by_infra =
      some (some "rheos") ∧
    (extract_custom_fields [⟨some "prelim_root_cause", some "   "⟩]).prelim_root_cause =
      some "" := by
  refine ⟨by decide, by decide, by decide, by decide⟩

/-- Selector of the fields that write the `prelim_root_cause` slot:
lowered name equal to `prelim_root_cause` and truthy value. -/
def prelimSelect (f : CustomField) : Bool :=
  decide (pyLower (f.name.getD "") = "prelim_root_cause") && truthy f.value

theorem custom_field_step_prelim (acc : CustomFieldsResult) (f : CustomField) :
    (custom_field_step acc f).prelim_root_cause =
      if prelimSelect f then some (pyStrip (pyLower (f.value.getD "")))
      else acc.prelim_root_cause := by
  unfold custom_field_step prelimSelect
  by_cases h1 : pyLower (f.name.getD "") = "resolution" ∧ truthy f.value = true
  · rw [if_pos h1]
    have hname : ¬ pyLower (f.name.getD "") = "prelim_root_cause" := by
      rw [h1.1]
      decide
    simp [hname]
  · rw [if_neg h1]
    by_cases h2 : pyLower (f.name.getD "") = "prelim_root_cause" ∧ truthy f.value = true
    · rw [if_pos h2]
      simp [h2.1, h2.2]
    · rw [if_neg h2]
      rw [if_neg (by simpa [Bool.and_eq_true, decide_eq_true_iff] using h2)]

theorem foldl_prelim (fields : List CustomField) : ∀ acc : CustomFieldsResult,
    (fields.foldl custom_field_step acc).prelim_root_cause =
      match fields.reverse.find? prelimSelect with
      | some f => some (pyStrip (pyLower (f.value.getD "")))
      | none => acc.prelim_root_cause := by
  induction fields with
  | nil => intro acc; rfl
  | cons f fs ih =>
    intro acc
    rw [List.foldl_cons, ih, List.reverse_cons, List.find?_append]
    cases hfind : fs.reverse.find? prelimSelect with
    | some g => rfl
    | none =>
      simp only [Option.none_orElse]
      cases hsel : prelimSelect f with
      | true => simp [List.find?, hsel, custom_field_step_prelim, if_pos]
      | false => simp [List.find?, hsel, custom_field_step_prelim, if_neg]

/-- **C9 (amended).**  `caused_by_infra` is the *lowercased and
stripped* value of the last `prelim_root_cause` custom field carrying a
truthy value (`None` when there is none — so an absent or empty value
yields absence, but a whitespace-only value yields the present empty
string), and the conversion stores exactly the extracted value. -/
theorem c9_caused_by_infra_processed (fields : List CustomField) :
    (extract_custom_fields fields).prelim_root_cause =
      (match fields.reverse.find? prelimSelect with
       | some f => some (pyStrip (pyLower (f.value.getD "")))
       | none => none) ∧
    (∀ sysOffset raw esc dir cf inc,
      _convert_to_incident_object sysOffset raw esc dir cf = Except.ok inc →
      inc.caused_by_infra = cf.prelim_root_cause) := by
  constructor
  · exact foldl_prelim fields custom_fields_default
  · intro sysOffset raw esc dir cf inc h
    unfold _convert_to_incident_object at h
    simp only [bind, Except.bind, Except.map] at h
    repeat' split at h
    all_goals simp_all
    all_goals (cases h; rfl)

/-- Witness for C9 at a concrete field list (mixed-case name, padded
value). -/
theorem c9_caused_by_infra_processed_witness :
    (extract_custom_fields [⟨some "Prelim_Root_Cause", some " Tess "⟩]).prelim_root_cause =
      some "tess" := by
  have h := (c9_caused_by_infra_processed
    [⟨some "Prelim_Root_Cause", some " Tess "⟩]).1
  rw [h]
  decide

/-- Number of stored rows carrying the string id `s`. -/
def countId (t : Table) (s : String) : Nat :=
  (t.filter (fun r => r.id = some s)).length

theorem insertOrReplace_some (r : Row) (t : Table) (s : String)
    (h : r.id = some s) :
    insertOrReplace r t = (t.filter (fun row => row.id ≠ some s)) ++ [r] := by
  simp only [insertOrReplace, h]

theorem filter_id_after_ne (s : String) (l : Table) :
    (l.filter (fun row => row.id ≠ some s)).filter (fun r => r.id = some s) = [] := by
  rw [List.filter_filter]
  apply List.filter_eq_nil_iff.mpr
  intro a ha
  by_cases h : a.id = some s <;> simp [h]

/-- **C10.**  Storing two records with the same string id leaves
exactly one row for that id, carrying the later record's column values;
and every store operation preserves the invariant that each string id
keys at most one stored row. -/
theorem c10_upsert_last_write_wins (t : Table) (x y : Incident) (s : String)
    (hx : x.id = some s) (hy : y.id = some s) (nowx nowy : String) :
    ((store_incident x nowx (store_incident y nowy t)).filter
        (fun r => r.id = some s)) = [rowOfDict x.to_dict nowx] ∧
    (∀ z : Incident, ∀ nz : String, ∀ u : Table,
      (∀ s2 : String, countId u s2 ≤ 1) →
      (∀ s2 : String, countId (store_incident z nz u) s2 ≤ 1)) := by
  constructor
  · have hrx : (rowOfDict x.to_dict nowx).id = some s := hx
    have hry : (rowOfDict y.to_dict nowy).id = some s := hy
    rw [store_incident, store_incident,
      insertOrReplace_some _ _ s hry, insertOrReplace_some _ _ s hrx,
      List.filter_append, filter_id_after_ne]
    simp [hrx]
  · intro z nz u hu s2
    rw [store_incident]
    cases hz : (rowOfDict z.to_dict nz).id with
    | none =>
      have : insertOrReplace (rowOfDict z.to_dict nz) u =
          u ++ [rowOfDict z.to_dict nz] := by
        simp only [insertOrReplace, hz]
      rw [this]
      unfold countId
      rw [List.filter_append]
      have hone : (List.filter (fun r => r.id = some s2)
          [rowOfDict z.to_dict nz]) = [] := by
        simp [hz]
      rw [hone, List.append_nil]
      exact hu s2
    | some s0 =>
      rw [insertOrReplace_some _ _ s0 hz]
      unfold countId
      rw [List.filter_append]
      by_cases hss : s0 = s2
      · subst hss
        rw [filter_id_after_ne]
        simp [hz]
      · have hone : (List.filter (fun r => r.id = some s2)
            [rowOfDict z.to_dict nz]) = [] := by
          simp [hz, hss]
        rw [hone, List.append_nil]
        calc ((u.filter (fun row => row.id ≠ some s0)).filter
              (fun r => r.id = some s2)).length
            ≤ (u.filter (fun r => r.id = some s2)).length :=
              List.Sublist.length_le (List.Sublist.filter _ (List.filter_sublist u))
          _ ≤ 1 := hu s2

/-- The later write of the C10 witness. -/
def storeX : Incident := { mkBatchInc (some "I1") with title := "second write" }

/-- The earlier write of the C10 witness. -/
def storeY : Incident := { mkBatchInc (some "I1") with title := "first write" }

/-- Witness for C10: two writes to id `I1` leave one row, the later
one's values. -/
theorem c10_upsert_last_write_wins_witness :
    ((store_incident storeX "n2" (store_incident storeY "n1" [])).filter
        (fun r => r.id = some "I1")) = [rowOfDict storeX.to_dict "n2"] :=
  (c10_upsert_last_write_wins [] storeX storeY "I1" rfl rfl "n2" "n1").1

end PD
